import Mathlib

/-!
Verification of the luart token contract's fee-aware transfer path
(src/contracts/token/src/contract.rs, state.rs).

The contract wraps the external cw20-base token standard and interposes a
swap fee on the notify-send operations.  We shallowly embed the contract's
own functions (calculate_fee_amount, is_swap_message, transfer,
execute_send, execute_send_from, update_swap_fee_config) over an explicit
state of balances, allowances and the stored fee policy.  Machine integers
(Uint128) are modelled as Nat: cosmwasm Uint128 arithmetic is checked
(it panics rather than wraps), so Nat agrees with it exactly on every
non-panicking execution, and the one reachable panic site (the unchecked
subtraction amount - fee in the fee branch) is modelled explicitly as a
distinguished terminal error.  The external cw20-base primitives and the
payload decoder live outside this repository and are modelled from the
spec where needed; the decoder is kept abstract as a function parameter.
-/

/-- Account identifiers: opaque string-like addresses. -/
abbrev Addr := String

/-- Opaque binary payloads (the msg field of Send / SendFrom). -/
abbrev Binary := List Nat

/-- cosmwasm Decimal: a fixed-point number stored as an integer numerator
over the fixed denominator 10^18. -/
structure Decimal where
  num : Nat
deriving DecidableEq, Repr

/-- The fixed denominator of the Decimal type (10^18). -/
def DECIMAL_FRACTIONAL : Nat := 1000000000000000000

/-- state.rs: the stored swap fee policy (singleton record). -/
structure SwapFeeConfig where
  fee_admin : Addr
  enable_swap_fee : Bool
  swap_percent_fee : Decimal
  fee_receiver : Addr
deriving DecidableEq, Repr

/-- terraswap::pair::Cw20HookMsg, the well-known swap-hook message shape
the contract pattern-matches payloads against.  The third Swap field is
named to in the source; it is renamed dest here because to is a reserved
token in Lean. -/
inductive Cw20HookMsg where
  | Swap (belief_price : Option Decimal) (max_spread : Option Decimal) (dest : Option String)
  | WithdrawLiquidity
deriving DecidableEq, Repr

/-- The errors the contract surfaces.  Unauthorized and InvalidZeroAmount
are cw20_base::ContractError variants used by the source; Overflow stands
for the checked-subtraction StdError wrapped in ContractError.Std;
AddrValidation stands for the api.addr_validate StdError; SubPanic marks
the Uint128 Sub panic site in the fee branch (amount.sub(fee_amount) with
fee_amount greater than amount aborts the wasm execution). -/
inductive ContractError where
  | Unauthorized
  | InvalidZeroAmount
  | Overflow
  | AddrValidation
  | SubPanic
deriving DecidableEq, Repr

/-- The receive-notification carried by the submessage a plain cw20 send
produces (cw20::Cw20ReceiveMsg). -/
structure Cw20ReceiveMsg where
  sender : Addr
  amount : Nat
  msg : Binary
deriving DecidableEq, Repr

/-- A response: its attribute list and its submessages, each submessage
being the target contract together with the receive notification sent to
it. -/
structure Response where
  attributes : List (String × String)
  messages : List (Addr × Cw20ReceiveMsg)
deriving DecidableEq, Repr

/-- Contract state: the cw20 balance ledger, the cw20 allowance ledger
(owner then spender), and the optional stored fee policy.  Absent ledger
entries read as 0 (cw20 uses unwrap_or_default on missing keys). -/
structure State where
  balances : Addr → Nat
  allowances : Addr → Addr → Nat
  swap_fee_config : Option SwapFeeConfig

/-- Point update of a balance map. -/
def setBal (b : Addr → Nat) (a : Addr) (v : Nat) : Addr → Nat :=
  fun x => if x = a then v else b x

/-- Point update of an allowance map. -/
def setAllow (al : Addr → Addr → Nat) (o s : Addr) (v : Nat) : Addr → Addr → Nat :=
  fun x y => if x = o ∧ y = s then v else al x y

/-- contract.rs is_swap_message: decode the payload and report whether it
is the Swap variant.  The decoder (serde from_binary into Cw20HookMsg,
external to this repository) is abstracted as fb; a failed decode is
none. -/
def is_swap_message (fb : Binary → Option Cw20HookMsg) (msg : Binary) : Bool :=
  match fb msg with
  | some (Cw20HookMsg.Swap _ _ _) => true
  | _ => false

/-- contract.rs calculate_fee_amount: if the policy enables the swap fee
and the payload is a swap message, amount.mul(swap_percent_fee) (which is
floor(amount * numerator / 10^18) in cosmwasm) followed by integer
division by 100; otherwise zero. -/
def calculate_fee_amount (fb : Binary → Option Cw20HookMsg) (amount : Nat)
    (msg : Binary) (swap_fee_config : SwapFeeConfig) : Nat :=
  if swap_fee_config.enable_swap_fee && is_swap_message fb msg then
    amount * swap_fee_config.swap_percent_fee.num / DECIMAL_FRACTIONAL / 100
  else
    0

/-- contract.rs transfer: reject zero amounts, debit the sender with a
checked subtraction (underflow is an error and nothing is written), then
credit the recipient.  Returns the state as mutated so far together with
the outcome. -/
def transfer (st : State) (sender recipient : Addr) (amount : Nat) :
    State × Except ContractError Unit :=
  if amount = 0 then
    (st, Except.error ContractError.InvalidZeroAmount)
  else if st.balances sender < amount then
    (st, Except.error ContractError.Overflow)
  else
    let b1 := setBal st.balances sender (st.balances sender - amount)
    let b2 := setBal b1 recipient (b1 recipient + amount)
    ({ st with balances := b2 }, Except.ok ())

/-- Modelled from the spec: the external cw20-base plain notify-send
primitive (cw20_execute_send), which is not part of this repository.  Per
the spec it rejects a zero gross amount, moves the tokens from the sender
to the recipient contract (checked subtraction, insufficient balance is
an error with no state change), and produces one receive-notification
submessage for the full amount. -/
def cw20_execute_send (st : State) (sender contract : Addr) (amount : Nat)
    (msg : Binary) : State × Except ContractError Response :=
  if amount = 0 then
    (st, Except.error ContractError.InvalidZeroAmount)
  else if st.balances sender < amount then
    (st, Except.error ContractError.Overflow)
  else
    let b1 := setBal st.balances sender (st.balances sender - amount)
    let b2 := setBal b1 contract (b1 contract + amount)
    ({ st with balances := b2 },
     Except.ok
       { attributes := [("action", "send"), ("from", sender), ("to", contract),
                        ("amount", toString amount)],
         messages := [(contract, { sender := sender, amount := amount, msg := msg })] })

/-- Modelled from the spec: the external cw20-base delegated notify-send
primitive (cw20_execute_send_from), not part of this repository.  Per the
spec it rejects a zero gross amount, consumes the executor's allowance
from the owner by exactly the transferred amount (insufficient allowance
is an error), moves the tokens from the owner to the recipient contract,
and produces one receive-notification submessage naming the executor as
sender. -/
def cw20_execute_send_from (st : State) (executor owner contract : Addr)
    (amount : Nat) (msg : Binary) : State × Except ContractError Response :=
  if amount = 0 then
    (st, Except.error ContractError.InvalidZeroAmount)
  else if st.allowances owner executor < amount then
    (st, Except.error ContractError.Overflow)
  else if st.balances owner < amount then
    (st, Except.error ContractError.Overflow)
  else
    let al := setAllow st.allowances owner executor (st.allowances owner executor - amount)
    let b1 := setBal st.balances owner (st.balances owner - amount)
    let b2 := setBal b1 contract (b1 contract + amount)
    ({ st with allowances := al, balances := b2 },
     Except.ok
       { attributes := [("action", "send_from"), ("from", owner), ("to", contract),
                        ("by", executor), ("amount", toString amount)],
         messages := [(contract, { sender := executor, amount := amount, msg := msg })] })

/-- contract.rs execute_send: load the fee policy; when a policy is stored
and the computed fee is nonzero, move the fee from the sender to the fee
receiver via transfer, then delegate the residual amount.sub(fee_amount)
to the plain cw20 send and rebuild the response with the send attributes,
the fee_amount attribute and the delegated submessages; in every other
case it is exactly the plain cw20 send.  Errors of the inner calls are
propagated with the storage as mutated so far (the Rust question-mark
operator does not undo earlier writes); the Uint128 Sub panic on
fee_amount greater than amount is the SubPanic outcome. -/
def execute_send (fb : Binary → Option Cw20HookMsg) (st : State)
    (sender contract : Addr) (amount : Nat) (msg : Binary) :
    State × Except ContractError Response :=
  match st.swap_fee_config with
  | some fee_config =>
    let fee_amount := calculate_fee_amount fb amount msg fee_config
    if fee_amount ≠ 0 then
      let t := transfer st sender fee_config.fee_receiver fee_amount
      match t.2 with
      | Except.error e => (t.1, Except.error e)
      | Except.ok _ =>
        if amount < fee_amount then
          (t.1, Except.error ContractError.SubPanic)
        else
          let send_amount := amount - fee_amount
          let c := cw20_execute_send t.1 sender contract send_amount msg
          match c.2 with
          | Except.error e => (c.1, Except.error e)
          | Except.ok res =>
            (c.1, Except.ok
              { attributes := [("action", "send"), ("from", sender), ("to", contract),
                               ("amount", toString amount),
                               ("fee_amount", toString fee_amount)],
                messages := res.messages })
    else
      cw20_execute_send st sender contract amount msg
  | none => cw20_execute_send st sender contract amount msg

/-- contract.rs execute_send_from: same as execute_send, except the fee
leg validates the owner address (api.addr_validate, abstracted as av) and
debits the owner, and the residual amount is delegated to the plain cw20
send-from, which alone consumes allowance. -/
def execute_send_from (fb : Binary → Option Cw20HookMsg)
    (av : String → Option Addr) (st : State) (executor : Addr)
    (owner contract : Addr) (amount : Nat) (msg : Binary) :
    State × Except ContractError Response :=
  match st.swap_fee_config with
  | some fee_config =>
    let fee_amount := calculate_fee_amount fb amount msg fee_config
    if fee_amount ≠ 0 then
      match av owner with
      | none => (st, Except.error ContractError.AddrValidation)
      | some owner_addr =>
        let t := transfer st owner_addr fee_config.fee_receiver fee_amount
        match t.2 with
        | Except.error e => (t.1, Except.error e)
        | Except.ok _ =>
          if amount < fee_amount then
            (t.1, Except.error ContractError.SubPanic)
          else
            let send_amount := amount - fee_amount
            let c := cw20_execute_send_from t.1 executor owner contract send_amount msg
            match c.2 with
            | Except.error e => (c.1, Except.error e)
            | Except.ok res =>
              (c.1, Except.ok
                { attributes := [("action", "send_from"), ("from", owner), ("to", contract),
                                 ("by", executor), ("amount", toString amount),
                                 ("fee_amount", toString fee_amount)],
                  messages := res.messages })
    else
      cw20_execute_send_from st executor owner contract amount msg
  | none => cw20_execute_send_from st executor owner contract amount msg

/-- The response of a successful update_swap_fee_config. -/
def updateResponse : Response :=
  { attributes := [("method", "update_swap_fee_config")], messages := [] }

/-- contract.rs update_swap_fee_config: Unauthorized when no policy is
stored or the caller is not the stored fee_admin; otherwise each supplied
field overrides the stored one (identities through api.addr_validate,
whose failure aborts before the save), and the merged record is saved. -/
def update_swap_fee_config (av : String → Option Addr) (st : State)
    (sender : Addr) (fee_admin : Option String) (enable_swap_fee : Option Bool)
    (swap_percent_fee : Option Decimal) (fee_receiver : Option String) :
    State × Except ContractError Response :=
  match st.swap_fee_config with
  | none => (st, Except.error ContractError.Unauthorized)
  | some cfg0 =>
    if cfg0.fee_admin ≠ sender then
      (st, Except.error ContractError.Unauthorized)
    else
      let step1 : Except ContractError SwapFeeConfig :=
        match fee_admin with
        | some s =>
          match av s with
          | some a => Except.ok { cfg0 with fee_admin := a }
          | none => Except.error ContractError.AddrValidation
        | none => Except.ok cfg0
      match step1 with
      | Except.error e => (st, Except.error e)
      | Except.ok cfg1 =>
        let cfg2 :=
          match enable_swap_fee with
          | some b => { cfg1 with enable_swap_fee := b }
          | none => cfg1
        let cfg3 :=
          match swap_percent_fee with
          | some d => { cfg2 with swap_percent_fee := d }
          | none => cfg2
        match fee_receiver with
        | some s =>
          match av s with
          | some a =>
            ({ st with swap_fee_config := some { cfg3 with fee_receiver := a } },
             Except.ok updateResponse)
          | none => (st, Except.error ContractError.AddrValidation)
        | none =>
          ({ st with swap_fee_config := some cfg3 }, Except.ok updateResponse)

/-- The fee formula as the spec words it: floor of gross times the
percentage, divided by 100, as one mathematical floor over the fixed-point
representation; zero when the fee is disabled or the payload is not a
swap.  Stated separately from calculate_fee_amount so the code's two-step
truncation can be compared against it. -/
def fee_amount_spec (fb : Binary → Option Cw20HookMsg) (amount : Nat)
    (msg : Binary) (swap_fee_config : SwapFeeConfig) : Nat :=
  if swap_fee_config.enable_swap_fee && is_swap_message fb msg then
    amount * swap_fee_config.swap_percent_fee.num / (100 * DECIMAL_FRACTIONAL)
  else
    0

/-! Concrete objects used by witnesses and counterexamples.  fb0 is a
concrete decoder recognizing the byte payload 1 as the Swap variant;
avOk is the identity address validator (the behavior of the test mock
api on well-formed inputs). -/

/-- A concrete payload decoder: payload 1 decodes to Swap, payload 2 to
WithdrawLiquidity, everything else fails to decode. -/
def fb0 : Binary → Option Cw20HookMsg :=
  fun b =>
    if b = [1] then some (Cw20HookMsg.Swap none none none)
    else if b = [2] then some Cw20HookMsg.WithdrawLiquidity
    else none

/-- A concrete address validator accepting every nonempty string as
itself. -/
def avOk : String → Option Addr :=
  fun s => if s = "" then none else some s

/-- The fee policy of the repository's own test suite: enabled, 10
percent, with the mock admin and receiver. -/
def cfg10 : SwapFeeConfig :=
  { fee_admin := "mock_fee_admin", enable_swap_fee := true,
    swap_percent_fee := { num := 10 * DECIMAL_FRACTIONAL },
    fee_receiver := "mock_fee_receiver" }

/-- A policy holding a 200 percent fee, which nothing in the contract
prevents from being stored. -/
def cfg200 : SwapFeeConfig :=
  { cfg10 with swap_percent_fee := { num := 200 * DECIMAL_FRACTIONAL } }

/-- A policy holding a 100 percent fee. -/
def cfg100 : SwapFeeConfig :=
  { cfg10 with swap_percent_fee := { num := 100 * DECIMAL_FRACTIONAL } }

/-- The test suite's initial state: the mock owner holds one billion
tokens and the test policy is stored. -/
def st0 : State :=
  { balances := fun a => if a = "mock_owner" then 1000000000 else 0,
    allowances := fun _ _ => 0,
    swap_fee_config := some cfg10 }

/-- The state of the repository's delegated-send test: as st0, plus an
allowance from the owner to the spender that covers only the principal
(9,000,000) of a 10,000,000 gross send, not the gross amount. -/
def stFrom : State :=
  { st0 with allowances :=
      fun o s => if o = "mock_owner" ∧ s = "mock_sender" then 9000000 else 0 }

/-- st0 with no stored fee policy. -/
def stNoCfg : State :=
  { st0 with swap_fee_config := none }

/-- st0 with the policy stored but disabled. -/
def stDisabled : State :=
  { st0 with swap_fee_config := some { cfg10 with enable_swap_fee := false } }

/-- A small state for the 100 percent fee edge case: alice holds 5
tokens and the stored policy charges a 100 percent swap fee. -/
def stAlice : State :=
  { balances := fun a => if a = "alice" then 5 else 0,
    allowances := fun _ _ => 0,
    swap_fee_config := some cfg100 }

/-- The net effect on the balance map of one debit-then-credit pair (the
two sequential BALANCES.update calls shared by transfer and the plain
cw20 moves). -/
def twoLegBal (b : Addr → Nat) (payer recipient : Addr) (amount : Nat) : Addr → Nat :=
  setBal (setBal b payer (b payer - amount)) recipient
    ((setBal b payer (b payer - amount)) recipient + amount)

/-! Point lookup lemmas for the ledger updates. -/

theorem setBal_same (b : Addr → Nat) (a : Addr) (v : Nat) : setBal b a v a = v := by
  simp [setBal]

theorem setBal_other (b : Addr → Nat) (a : Addr) (v : Nat) (x : Addr) (h : x ≠ a) :
    setBal b a v x = b x := by
  simp [setBal, h]

theorem setAllow_same (al : Addr → Addr → Nat) (o s : Addr) (v : Nat) :
    setAllow al o s v o s = v := by
  simp [setAllow]

/-- The fee on a zero gross amount is zero, for every policy and payload. -/
theorem calculate_fee_amount_zero (fb : Binary → Option Cw20HookMsg) (msg : Binary)
    (cfg : SwapFeeConfig) : calculate_fee_amount fb 0 msg cfg = 0 := by
  unfold calculate_fee_amount
  split <;> simp

/-- C5: The fee calculator is a pure total function with no error path:
for every gross amount, payload, and policy, it returns 0 when the
policy's enable_swap_fee is false or the payload is not a swap trigger,
and otherwise returns floor(gross * swap_percent_fee / 100), the code's
truncating fixed-point multiplication followed by integer division by
100 agreeing with the single mathematical floor the spec describes. -/
theorem calculate_fee_amount_eq_spec (fb : Binary → Option Cw20HookMsg) (amount : Nat)
    (msg : Binary) (cfg : SwapFeeConfig) :
    calculate_fee_amount fb amount msg cfg = fee_amount_spec fb amount msg cfg := by
  by_cases h : (cfg.enable_swap_fee && is_swap_message fb msg) = true
  · simp only [calculate_fee_amount, fee_amount_spec, if_pos h]
    rw [Nat.div_div_eq_div_mul, Nat.mul_comm DECIMAL_FRACTIONAL 100]
  · simp only [calculate_fee_amount, fee_amount_spec, if_neg h]

/-- C1 (amended): for every gross amount, payload, and policy whose
swap_percent_fee is at most 100 percent, the computed fee never exceeds
the gross amount (and, the result being a natural number, is never
negative). -/
theorem calculate_fee_amount_le_amount (fb : Binary → Option Cw20HookMsg)
    (amount : Nat) (msg : Binary) (cfg : SwapFeeConfig)
    (h : cfg.swap_percent_fee.num ≤ 100 * DECIMAL_FRACTIONAL) :
    calculate_fee_amount fb amount msg cfg ≤ amount := by
  unfold calculate_fee_amount
  split
  · rw [Nat.div_div_eq_div_mul]
    have hpos : 0 < DECIMAL_FRACTIONAL * 100 := by
      simp [DECIMAL_FRACTIONAL]
    calc amount * cfg.swap_percent_fee.num / (DECIMAL_FRACTIONAL * 100)
        ≤ amount * (100 * DECIMAL_FRACTIONAL) / (DECIMAL_FRACTIONAL * 100) :=
          Nat.div_le_div_right (Nat.mul_le_mul_left amount h)
      _ = amount := by
          rw [Nat.mul_comm 100 DECIMAL_FRACTIONAL]
          exact Nat.mul_div_cancel amount hpos
  · exact Nat.zero_le amount

/-- Witness for the amended C1 at the test suite's own policy. -/
theorem calculate_fee_amount_le_amount_witness :
    cfg10.swap_percent_fee.num ≤ 100 * DECIMAL_FRACTIONAL ∧
    calculate_fee_amount fb0 10000000 [1] cfg10 ≤ 10000000 :=
  ⟨by decide,
   calculate_fee_amount_le_amount fb0 10000000 [1] cfg10 (by decide)⟩

/-- C1 counterexample: with a stored policy holding swap_percent_fee of
200 percent (which neither instantiation nor the admin update operation
prevents), a swap-trigger send of gross amount 100 is charged a fee of
200, which exceeds the gross amount, refuting the claim that the fee
never exceeds the amount being sent for every storable policy. -/
theorem calculate_fee_amount_exceeds_gross_cex :
    calculate_fee_amount fb0 100 [1] cfg200 = 200 ∧
    ¬ calculate_fee_amount fb0 100 [1] cfg200 ≤ 100 := by
  constructor
  · decide
  · decide

/-- C9: the payload classifier is a total, deterministic, side-effect-free
function from payload bytes to Bool: whatever the decoder yields, the
classifier returns true exactly when the payload decodes into the Swap
variant, and false on every decode failure or decode into a different
variant, never an error. -/
theorem is_swap_message_true_iff (fb : Binary → Option Cw20HookMsg) (msg : Binary) :
    is_swap_message fb msg = true ↔
      ∃ bp ms d, fb msg = some (Cw20HookMsg.Swap bp ms d) := by
  unfold is_swap_message
  cases h : fb msg with
  | none => simp
  | some m =>
    cases m with
    | Swap bp ms d => simp
    | WithdrawLiquidity => simp

/-- C10: a Send or SendFrom with gross amount zero fails with the zero
amount error and leaves the entire state (in particular every balance)
unchanged, for every stored policy, payload, sender, owner and contract:
the fee on a zero amount is zero, so the fee leg is never taken, and the
delegated plain primitive rejects the zero amount before touching any
balance. -/
theorem zero_amount_send_rejected (fb : Binary → Option Cw20HookMsg)
    (av : String → Option Addr) (st : State) (sender executor owner contract : Addr)
    (msg : Binary) :
    execute_send fb st sender contract 0 msg =
      (st, Except.error ContractError.InvalidZeroAmount) ∧
    execute_send_from fb av st executor owner contract 0 msg =
      (st, Except.error ContractError.InvalidZeroAmount) := by
  constructor
  · unfold execute_send
    cases h : st.swap_fee_config with
    | none => simp [cw20_execute_send]
    | some cfg => simp [calculate_fee_amount_zero, cw20_execute_send]
  · unfold execute_send_from
    cases h : st.swap_fee_config with
    | none => simp [cw20_execute_send_from]
    | some cfg => simp [calculate_fee_amount_zero, cw20_execute_send_from]

/-- C7: the admin update fails with an authorization error, and changes
nothing, whenever no policy is stored or the caller differs from the
stored fee_admin, for every combination of optional fields. -/
theorem update_swap_fee_config_unauthorized (av : String → Option Addr) (st : State)
    (sender : Addr) (fa : Option String) (es : Option Bool) (spf : Option Decimal)
    (fr : Option String)
    (h : st.swap_fee_config = none ∨
         ∃ cfg, st.swap_fee_config = some cfg ∧ cfg.fee_admin ≠ sender) :
    update_swap_fee_config av st sender fa es spf fr =
      (st, Except.error ContractError.Unauthorized) := by
  rcases h with h | ⟨cfg, h, hne⟩
  · unfold update_swap_fee_config
    rw [h]
  · unfold update_swap_fee_config
    rw [h]
    simp only [if_pos hne]

/-- Witness for C7: the repository's own test (update attempted by the
token owner, who is not the fee admin) is rejected unchanged. -/
theorem update_swap_fee_config_unauthorized_witness :
    (st0.swap_fee_config = none ∨
     ∃ cfg, st0.swap_fee_config = some cfg ∧ cfg.fee_admin ≠ "mock_owner") ∧
    update_swap_fee_config avOk st0 "mock_owner" none none none none =
      (st0, Except.error ContractError.Unauthorized) :=
  ⟨Or.inr ⟨cfg10, rfl, by decide⟩,
   update_swap_fee_config_unauthorized avOk st0 "mock_owner" none none none none
     (Or.inr ⟨cfg10, rfl, by decide⟩)⟩

/-- C8: for an authorized admin update (policy stored, caller is the
stored fee_admin): (1) when every supplied identity validates, exactly
the supplied fields are changed (identities to their validated form) and
every absent field keeps its prior stored value; (2) a supplied fee_admin
or fee_receiver that fails validation makes the operation fail with the
validation error and leaves the stored policy entirely unchanged; (3) an
update with all four fields absent re-saves the policy with the same
values, a no-op. -/
theorem update_swap_fee_config_authorized (av : String → Option Addr) (st : State)
    (sender : Addr) (fa : Option String) (es : Option Bool) (spf : Option Decimal)
    (fr : Option String) (cfg0 : SwapFeeConfig)
    (hcfg : st.swap_fee_config = some cfg0)
    (hadm : cfg0.fee_admin = sender) :
    ((∀ s, fa = some s → (av s).isSome) → (∀ s, fr = some s → (av s).isSome) →
      update_swap_fee_config av st sender fa es spf fr =
        (State.mk st.balances st.allowances
           (some (SwapFeeConfig.mk ((fa.bind av).getD cfg0.fee_admin)
              (es.getD cfg0.enable_swap_fee) (spf.getD cfg0.swap_percent_fee)
              ((fr.bind av).getD cfg0.fee_receiver))),
         Except.ok updateResponse)) ∧
    (((∃ s, fa = some s ∧ av s = none) ∨ (∃ s, fr = some s ∧ av s = none)) →
      update_swap_fee_config av st sender fa es spf fr =
        (st, Except.error ContractError.AddrValidation)) ∧
    (fa = none → es = none → spf = none → fr = none →
      update_swap_fee_config av st sender fa es spf fr =
        (st, Except.ok updateResponse)) := by
  have hne : ¬ cfg0.fee_admin ≠ sender := by simp [hadm]
  refine ⟨?_, ?_, ?_⟩
  · intro hfa hfr
    simp only [update_swap_fee_config, hcfg, if_neg hne]
    cases fa with
    | none =>
      cases fr with
      | none => cases es <;> cases spf <;> simp
      | some s2 =>
        obtain ⟨a2, hav2⟩ := Option.isSome_iff_exists.mp (hfr s2 rfl)
        cases es <;> cases spf <;> simp [hav2]
    | some s1 =>
      obtain ⟨a1, hav1⟩ := Option.isSome_iff_exists.mp (hfa s1 rfl)
      cases fr with
      | none => cases es <;> cases spf <;> simp [hav1]
      | some s2 =>
        obtain ⟨a2, hav2⟩ := Option.isSome_iff_exists.mp (hfr s2 rfl)
        cases es <;> cases spf <;> simp [hav1, hav2]
  · intro hbad
    simp only [update_swap_fee_config, hcfg, if_neg hne]
    rcases hbad with ⟨s1, hfa1, hav1⟩ | ⟨s2, hfr2, hav2⟩
    · subst hfa1
      simp [hav1]
    · subst hfr2
      cases fa with
      | none => simp [hav2]
      | some s1 =>
        cases h1 : av s1 with
        | none => simp [h1]
        | some a1 => simp [h1, hav2]
  · intro h1 h2 h3 h4
    subst h1
    subst h2
    subst h3
    subst h4
    obtain ⟨b, al, c⟩ := st
    simp only at hcfg
    subst hcfg
    simp [update_swap_fee_config, if_neg hne]

/-- Witness for C8 at the repository's own test inputs: the fee admin
replaces all four fields; each supplied value takes effect. -/
theorem update_swap_fee_config_authorized_witness :
    st0.swap_fee_config = some cfg10 ∧ cfg10.fee_admin = "mock_fee_admin" ∧
    update_swap_fee_config avOk st0 "mock_fee_admin" (some "new_fee_admin") (some false)
        (some { num := 5 * DECIMAL_FRACTIONAL }) (some "new_fee_receiver") =
      (State.mk st0.balances st0.allowances
         (some (SwapFeeConfig.mk (((some "new_fee_admin").bind avOk).getD cfg10.fee_admin)
            ((some false).getD cfg10.enable_swap_fee)
            ((some { num := 5 * DECIMAL_FRACTIONAL }).getD cfg10.swap_percent_fee)
            (((some "new_fee_receiver").bind avOk).getD cfg10.fee_receiver))),
       Except.ok updateResponse) :=
  ⟨rfl, rfl,
   (update_swap_fee_config_authorized avOk st0 "mock_fee_admin" (some "new_fee_admin")
      (some false) (some { num := 5 * DECIMAL_FRACTIONAL }) (some "new_fee_receiver") cfg10
      rfl rfl).1
     (by intro s h; cases h; decide)
     (by intro s h; cases h; decide)⟩

/-! Lookup lemmas for twoLegBal and the success shapes of the transfer
legs. -/

theorem twoLegBal_payer (b : Addr → Nat) (payer recipient : Addr) (amount : Nat)
    (h : payer ≠ recipient) :
    twoLegBal b payer recipient amount payer = b payer - amount := by
  simp [twoLegBal, setBal, h]

theorem twoLegBal_recipient (b : Addr → Nat) (payer recipient : Addr) (amount : Nat)
    (h : recipient ≠ payer) :
    twoLegBal b payer recipient amount recipient = b recipient + amount := by
  simp [twoLegBal, setBal, h]

theorem twoLegBal_other (b : Addr → Nat) (payer recipient : Addr) (amount : Nat)
    (x : Addr) (hx1 : x ≠ payer) (hx2 : x ≠ recipient) :
    twoLegBal b payer recipient amount x = b x := by
  simp [twoLegBal, setBal, hx1, hx2]

/-- The fee-leg transfer on sufficient balance: success, and the balance
map receives exactly the debit-credit pair. -/
theorem transfer_ok (st : State) (sender recipient : Addr) (amount : Nat)
    (h0 : ¬ amount = 0) (hb : ¬ st.balances sender < amount) :
    transfer st sender recipient amount =
      ({ st with balances := twoLegBal st.balances sender recipient amount },
       Except.ok ()) := by
  simp only [transfer, if_neg h0, if_neg hb, twoLegBal]

/-- The plain cw20 send on sufficient balance: success, the debit-credit
pair, and one receive notification for the full amount. -/
theorem cw20_execute_send_ok (st : State) (sender contract : Addr) (amount : Nat)
    (msg : Binary) (h0 : ¬ amount = 0) (hb : ¬ st.balances sender < amount) :
    cw20_execute_send st sender contract amount msg =
      ({ st with balances := twoLegBal st.balances sender contract amount },
       Except.ok
         { attributes := [("action", "send"), ("from", sender), ("to", contract),
                          ("amount", toString amount)],
           messages := [(contract, { sender := sender, amount := amount, msg := msg })] }) := by
  simp only [cw20_execute_send, if_neg h0, if_neg hb, twoLegBal]

/-- The plain cw20 send-from on sufficient allowance and balance:
success, the allowance debit, the balance pair, and one receive
notification naming the executor. -/
theorem cw20_execute_send_from_ok (st : State) (executor owner contract : Addr)
    (amount : Nat) (msg : Binary) (h0 : ¬ amount = 0)
    (hal : ¬ st.allowances owner executor < amount)
    (hb : ¬ st.balances owner < amount) :
    cw20_execute_send_from st executor owner contract amount msg =
      ({ st with
          allowances := setAllow st.allowances owner executor
            (st.allowances owner executor - amount),
          balances := twoLegBal st.balances owner contract amount },
       Except.ok
         { attributes := [("action", "send_from"), ("from", owner), ("to", contract),
                          ("by", executor), ("amount", toString amount)],
           messages := [(contract, { sender := executor, amount := amount, msg := msg })] }) := by
  simp only [cw20_execute_send_from, if_neg h0, if_neg hal, if_neg hb, twoLegBal]

/-- The fee branch of execute_send in full: with a stored policy, a
nonzero fee strictly below the gross amount, and sufficient sender
balance, the result is the fee-leg debit-credit followed by the
principal-leg debit-credit, a success response carrying the gross amount
and the fee, and one receive notification for the principal. -/
theorem execute_send_fee_branch (fb : Binary → Option Cw20HookMsg) (st : State)
    (sender contract : Addr) (amount : Nat) (msg : Binary) (cfg : SwapFeeConfig)
    (fee : Nat)
    (hcfg : st.swap_fee_config = some cfg)
    (hfee : calculate_fee_amount fb amount msg cfg = fee)
    (h0 : ¬ fee = 0) (hlt : fee < amount) (hbal : amount ≤ st.balances sender)
    (hsr : sender ≠ cfg.fee_receiver) :
    execute_send fb st sender contract amount msg =
      ({ st with balances := twoLegBal (twoLegBal st.balances sender cfg.fee_receiver fee) sender contract (amount - fee) },
       Except.ok
         { attributes := [("action", "send"), ("from", sender), ("to", contract),
                          ("amount", toString amount), ("fee_amount", toString fee)],
           messages := [(contract, { sender := sender, amount := amount - fee, msg := msg })] }) := by
  have hfb : ¬ st.balances sender < fee := by omega
  have h1 := transfer_ok st sender cfg.fee_receiver fee h0 hfb
  have h0p : ¬ (amount - fee = 0) := by omega
  have hfb2 : ¬ (State.mk (twoLegBal st.balances sender cfg.fee_receiver fee)
      st.allowances (some cfg)).balances sender < amount - fee := by
    show ¬ twoLegBal st.balances sender cfg.fee_receiver fee sender < amount - fee
    rw [twoLegBal_payer _ _ _ _ hsr]
    omega
  have h2 := cw20_execute_send_ok
    (State.mk (twoLegBal st.balances sender cfg.fee_receiver fee) st.allowances (some cfg))
    sender contract (amount - fee) msg h0p hfb2
  have hnl : ¬ amount < fee := by omega
  simp only [execute_send, hcfg, hfee, if_pos h0, h1]
  rw [if_neg hnl]
  simp only [h2]

/-- The fee branch of execute_send_from in full: with a stored policy, a
nonzero fee strictly below the gross amount, a validated owner, owner
balance covering the gross amount, allowance covering only the
principal, and owner distinct from the fee receiver: the owner pays the
fee leg without any allowance being touched, the delegated send-from
moves the principal and consumes allowance equal to the principal, and
the response carries one receive notification for the principal. -/
theorem execute_send_from_fee_branch (fb : Binary → Option Cw20HookMsg)
    (av : String → Option Addr) (st : State) (executor owner contract : Addr)
    (amount : Nat) (msg : Binary) (cfg : SwapFeeConfig) (fee : Nat)
    (hcfg : st.swap_fee_config = some cfg)
    (hfee : calculate_fee_amount fb amount msg cfg = fee)
    (h0 : ¬ fee = 0) (hlt : fee < amount)
    (hav : av owner = some owner)
    (hbal : amount ≤ st.balances owner)
    (hallow : amount - fee ≤ st.allowances owner executor)
    (hor : owner ≠ cfg.fee_receiver) :
    execute_send_from fb av st executor owner contract amount msg =
      (State.mk
        (twoLegBal (twoLegBal st.balances owner cfg.fee_receiver fee) owner contract (amount - fee))
        (setAllow st.allowances owner executor (st.allowances owner executor - (amount - fee)))
        (some cfg),
       Except.ok
         { attributes := [("action", "send_from"), ("from", owner), ("to", contract),
                          ("by", executor), ("amount", toString amount),
                          ("fee_amount", toString fee)],
           messages := [(contract, { sender := executor, amount := amount - fee, msg := msg })] }) := by
  have hfb : ¬ st.balances owner < fee := by omega
  have h1 := transfer_ok st owner cfg.fee_receiver fee h0 hfb
  have h0p : ¬ (amount - fee = 0) := by omega
  have hal2 : ¬ (State.mk (twoLegBal st.balances owner cfg.fee_receiver fee)
      st.allowances (some cfg)).allowances owner executor < amount - fee := by
    show ¬ st.allowances owner executor < amount - fee
    omega
  have hfb2 : ¬ (State.mk (twoLegBal st.balances owner cfg.fee_receiver fee)
      st.allowances (some cfg)).balances owner < amount - fee := by
    show ¬ twoLegBal st.balances owner cfg.fee_receiver fee owner < amount - fee
    rw [twoLegBal_payer _ _ _ _ hor]
    omega
  have h2 := cw20_execute_send_from_ok
    (State.mk (twoLegBal st.balances owner cfg.fee_receiver fee) st.allowances (some cfg))
    executor owner contract (amount - fee) msg h0p hal2 hfb2
  have hnl : ¬ amount < fee := by omega
  simp only [execute_send_from, hcfg, hfee, if_pos h0, hav, h1]
  rw [if_neg hnl]
  simp only [h2]

/-- C4: for every fee-liable SendFrom, the executor's allowance from the
owner is consumed only by the delegated principal-leg call and only by
the principal (gross minus fee); the fee-leg debit of the owner's balance
consumes no allowance; in particular the SendFrom succeeds even though
the hypotheses only require the allowance to cover the principal, not
the gross amount. -/
theorem execute_send_from_allowance (fb : Binary → Option Cw20HookMsg)
    (av : String → Option Addr) (st : State) (executor owner contract : Addr)
    (amount : Nat) (msg : Binary) (cfg : SwapFeeConfig) (fee : Nat)
    (hcfg : st.swap_fee_config = some cfg)
    (hfee : calculate_fee_amount fb amount msg cfg = fee)
    (h0 : ¬ fee = 0) (hlt : fee < amount)
    (hav : av owner = some owner)
    (hbal : amount ≤ st.balances owner)
    (hallow : amount - fee ≤ st.allowances owner executor)
    (hor : owner ≠ cfg.fee_receiver) :
    (execute_send_from fb av st executor owner contract amount msg).1.allowances owner executor
        = st.allowances owner executor - (amount - fee) ∧
    (execute_send_from fb av st executor owner contract amount msg).2 =
      Except.ok
        { attributes := [("action", "send_from"), ("from", owner), ("to", contract),
                         ("by", executor), ("amount", toString amount),
                         ("fee_amount", toString fee)],
          messages := [(contract, { sender := executor, amount := amount - fee, msg := msg })] } := by
  rw [execute_send_from_fee_branch fb av st executor owner contract amount msg cfg fee
      hcfg hfee h0 hlt hav hbal hallow hor]
  exact ⟨setAllow_same _ _ _ _, rfl⟩

/-- Witness for C4 at the repository's own delegated-send scenario, with
the allowance covering only the 9,000,000 principal of the 10,000,000
gross send: the operation succeeds and the remaining allowance is 0. -/
theorem execute_send_from_allowance_witness :
    stFrom.swap_fee_config = some cfg10 ∧
    calculate_fee_amount fb0 10000000 [1] cfg10 = 1000000 ∧
    ¬ (1000000 : Nat) = 0 ∧ (1000000 : Nat) < 10000000 ∧
    avOk "mock_owner" = some "mock_owner" ∧
    10000000 ≤ stFrom.balances "mock_owner" ∧
    10000000 - 1000000 ≤ stFrom.allowances "mock_owner" "mock_sender" ∧
    "mock_owner" ≠ cfg10.fee_receiver ∧
    ((execute_send_from fb0 avOk stFrom "mock_sender" "mock_owner" "dex_contract"
        10000000 [1]).1.allowances "mock_owner" "mock_sender"
        = stFrom.allowances "mock_owner" "mock_sender" - (10000000 - 1000000) ∧
     (execute_send_from fb0 avOk stFrom "mock_sender" "mock_owner" "dex_contract"
        10000000 [1]).2 =
       Except.ok
         { attributes := [("action", "send_from"), ("from", "mock_owner"),
                          ("to", "dex_contract"), ("by", "mock_sender"),
                          ("amount", toString (10000000 : Nat)),
                          ("fee_amount", toString (1000000 : Nat))],
           messages := [("dex_contract",
             { sender := "mock_sender", amount := 10000000 - 1000000, msg := [1] })] }) :=
  ⟨rfl, by decide, by decide, by decide, by decide, by decide, by decide, by decide,
   execute_send_from_allowance fb0 avOk stFrom "mock_sender" "mock_owner" "dex_contract"
     10000000 [1] cfg10 1000000 rfl (by decide) (by decide) (by decide) (by decide)
     (by decide) (by decide) (by decide)⟩

/-- C6: when no fee policy is stored, and likewise when a policy is
stored with enable_swap_fee false (whatever the payload decodes to), the
fee-aware Send and SendFrom return exactly the result (state and
response) of the underlying plain cw20 primitives on the same inputs: no
fee attribute, no extra balance mutation. -/
theorem execute_send_passthrough (fb : Binary → Option Cw20HookMsg)
    (av : String → Option Addr) (st : State) (sender executor owner contract : Addr)
    (amount : Nat) (msg : Binary)
    (h : st.swap_fee_config = none ∨
         ∃ cfg, st.swap_fee_config = some cfg ∧ cfg.enable_swap_fee = false) :
    execute_send fb st sender contract amount msg =
      cw20_execute_send st sender contract amount msg ∧
    execute_send_from fb av st executor owner contract amount msg =
      cw20_execute_send_from st executor owner contract amount msg := by
  rcases h with h | ⟨cfg, h, hdis⟩
  · constructor
    · simp only [execute_send, h]
    · simp only [execute_send_from, h]
  · have hz : calculate_fee_amount fb amount msg cfg = 0 := by
      unfold calculate_fee_amount
      rw [hdis]
      simp
    constructor
    · simp only [execute_send, h, hz]
      simp
    · simp only [execute_send_from, h, hz]
      simp

/-- Witness for C6 in both scenarios: without a stored policy, and with
the disabled policy and a recognized swap payload. -/
theorem execute_send_passthrough_witness :
    (stNoCfg.swap_fee_config = none ∨
     ∃ cfg, stNoCfg.swap_fee_config = some cfg ∧ cfg.enable_swap_fee = false) ∧
    (execute_send fb0 stNoCfg "mock_owner" "dex_contract" 10000000 [1] =
       cw20_execute_send stNoCfg "mock_owner" "dex_contract" 10000000 [1] ∧
     execute_send_from fb0 avOk stNoCfg "mock_sender" "mock_owner" "dex_contract" 10000000 [1] =
       cw20_execute_send_from stNoCfg "mock_sender" "mock_owner" "dex_contract" 10000000 [1]) ∧
    (stDisabled.swap_fee_config = none ∨
     ∃ cfg, stDisabled.swap_fee_config = some cfg ∧ cfg.enable_swap_fee = false) ∧
    (execute_send fb0 stDisabled "mock_owner" "dex_contract" 10000000 [1] =
       cw20_execute_send stDisabled "mock_owner" "dex_contract" 10000000 [1] ∧
     execute_send_from fb0 avOk stDisabled "mock_sender" "mock_owner" "dex_contract" 10000000 [1] =
       cw20_execute_send_from stDisabled "mock_sender" "mock_owner" "dex_contract" 10000000 [1]) :=
  ⟨Or.inl rfl,
   execute_send_passthrough fb0 avOk stNoCfg "mock_owner" "mock_sender" "mock_owner"
     "dex_contract" 10000000 [1] (Or.inl rfl),
   Or.inr ⟨{ cfg10 with enable_swap_fee := false }, rfl, rfl⟩,
   execute_send_passthrough fb0 avOk stDisabled "mock_owner" "mock_sender" "mock_owner"
     "dex_contract" 10000000 [1]
     (Or.inr ⟨{ cfg10 with enable_swap_fee := false }, rfl, rfl⟩)⟩

/-- C3 refutation at the 100 percent fee edge case flagged by the spec:
starting from alice holding 5 tokens under the enabled 100 percent
policy, a Send of 5 with a swap payload computes fee 5, the fee leg
debits alice and credits the fee receiver, then the principal-leg plain
send fails with the zero amount error (principal 0); execute_send
returns that error while the fee-leg balance writes are still applied in
the storage it was given: alice 5 to 0 and the fee receiver 0 to 5.  The
contract code contains no undo; only the hosting environment's
transactional boundary, outside this repository, would revert the
writes. -/
theorem execute_send_error_keeps_fee_leg :
    stAlice.balances "alice" = 5 ∧
    stAlice.balances cfg100.fee_receiver = 0 ∧
    calculate_fee_amount fb0 5 [1] cfg100 = 5 ∧
    (execute_send fb0 stAlice "alice" "dex_contract" 5 [1]).2 =
      Except.error ContractError.InvalidZeroAmount ∧
    (execute_send fb0 stAlice "alice" "dex_contract" 5 [1]).1.balances "alice" = 0 ∧
    (execute_send fb0 stAlice "alice" "dex_contract" 5 [1]).1.balances cfg100.fee_receiver = 5 := by
  refine ⟨rfl, rfl, by decide, ?_, ?_, ?_⟩
  · rfl
  · rfl
  · rfl

/-- C2: for every successful fee-liable Send and SendFrom (stored
policy, payload yielding a nonzero fee below the gross amount, distinct
parties, sufficient balance, and for SendFrom a validated owner and an
allowance covering the principal): the payer's balance decreases by
exactly the gross amount, the fee receiver's balance increases by
exactly the fee, the recipient contract is credited with exactly the
principal, and the delegated plain send is invoked with principal gross
minus fee, as its single receive notification shows, for every (amount,
policy) pair. -/
theorem execute_send_conservation (fb : Binary → Option Cw20HookMsg)
    (av : String → Option Addr) (st : State) (sender executor contract : Addr)
    (amount : Nat) (msg : Binary) (cfg : SwapFeeConfig) (fee : Nat)
    (hcfg : st.swap_fee_config = some cfg)
    (hfee : calculate_fee_amount fb amount msg cfg = fee)
    (h0 : ¬ fee = 0) (hlt : fee < amount) (hbal : amount ≤ st.balances sender)
    (hsr : sender ≠ cfg.fee_receiver) (hsc : sender ≠ contract)
    (hrc : cfg.fee_receiver ≠ contract)
    (hav : av sender = some sender)
    (hallow : amount - fee ≤ st.allowances sender executor) :
    ((execute_send fb st sender contract amount msg).1.balances sender
        = st.balances sender - amount ∧
     (execute_send fb st sender contract amount msg).1.balances cfg.fee_receiver
        = st.balances cfg.fee_receiver + fee ∧
     (execute_send fb st sender contract amount msg).1.balances contract
        = st.balances contract + (amount - fee) ∧
     (execute_send fb st sender contract amount msg).2 =
       Except.ok
         { attributes := [("action", "send"), ("from", sender), ("to", contract),
                          ("amount", toString amount), ("fee_amount", toString fee)],
           messages := [(contract, { sender := sender, amount := amount - fee, msg := msg })] }) ∧
    ((execute_send_from fb av st executor sender contract amount msg).1.balances sender
        = st.balances sender - amount ∧
     (execute_send_from fb av st executor sender contract amount msg).1.balances cfg.fee_receiver
        = st.balances cfg.fee_receiver + fee ∧
     (execute_send_from fb av st executor sender contract amount msg).1.balances contract
        = st.balances contract + (amount - fee) ∧
     (execute_send_from fb av st executor sender contract amount msg).2 =
       Except.ok
         { attributes := [("action", "send_from"), ("from", sender), ("to", contract),
                          ("by", executor), ("amount", toString amount),
                          ("fee_amount", toString fee)],
           messages := [(contract, { sender := executor, amount := amount - fee, msg := msg })] }) := by
  constructor
  · rw [execute_send_fee_branch fb st sender contract amount msg cfg fee hcfg hfee h0 hlt hbal hsr]
    refine ⟨?_, ?_, ?_, rfl⟩
    · show twoLegBal (twoLegBal st.balances sender cfg.fee_receiver fee) sender contract
          (amount - fee) sender = st.balances sender - amount
      rw [twoLegBal_payer _ _ _ _ hsc, twoLegBal_payer _ _ _ _ hsr]
      omega
    · show twoLegBal (twoLegBal st.balances sender cfg.fee_receiver fee) sender contract
          (amount - fee) cfg.fee_receiver = st.balances cfg.fee_receiver + fee
      rw [twoLegBal_other _ _ _ _ _ (Ne.symm hsr) hrc,
          twoLegBal_recipient _ _ _ _ (Ne.symm hsr)]
    · show twoLegBal (twoLegBal st.balances sender cfg.fee_receiver fee) sender contract
          (amount - fee) contract = st.balances contract + (amount - fee)
      rw [twoLegBal_recipient _ _ _ _ (Ne.symm hsc),
          twoLegBal_other _ _ _ _ _ (Ne.symm hsc) (Ne.symm hrc)]
  · rw [execute_send_from_fee_branch fb av st executor sender contract amount msg cfg fee
        hcfg hfee h0 hlt hav hbal hallow hsr]
    refine ⟨?_, ?_, ?_, rfl⟩
    · show twoLegBal (twoLegBal st.balances sender cfg.fee_receiver fee) sender contract
          (amount - fee) sender = st.balances sender - amount
      rw [twoLegBal_payer _ _ _ _ hsc, twoLegBal_payer _ _ _ _ hsr]
      omega
    · show twoLegBal (twoLegBal st.balances sender cfg.fee_receiver fee) sender contract
          (amount - fee) cfg.fee_receiver = st.balances cfg.fee_receiver + fee
      rw [twoLegBal_other _ _ _ _ _ (Ne.symm hsr) hrc,
          twoLegBal_recipient _ _ _ _ (Ne.symm hsr)]
    · show twoLegBal (twoLegBal st.balances sender cfg.fee_receiver fee) sender contract
          (amount - fee) contract = st.balances contract + (amount - fee)
      rw [twoLegBal_recipient _ _ _ _ (Ne.symm hsc),
          twoLegBal_other _ _ _ _ _ (Ne.symm hsc) (Ne.symm hrc)]

/-- Witness for C2 at the repository's own test scenarios: the owner
moves 10,000,000 with a swap payload under the 10 percent policy, both
directly and through the delegated executor; the fee is 1,000,000, the
owner is debited the full 10,000,000, the fee receiver is credited
1,000,000 and the contract receives the 9,000,000 principal. -/
theorem execute_send_conservation_witness :
    stFrom.swap_fee_config = some cfg10 ∧
    calculate_fee_amount fb0 10000000 [1] cfg10 = 1000000 ∧
    ¬ (1000000 : Nat) = 0 ∧ (1000000 : Nat) < 10000000 ∧
    10000000 ≤ stFrom.balances "mock_owner" ∧
    "mock_owner" ≠ cfg10.fee_receiver ∧ "mock_owner" ≠ "dex_contract" ∧
    cfg10.fee_receiver ≠ "dex_contract" ∧
    avOk "mock_owner" = some "mock_owner" ∧
    10000000 - 1000000 ≤ stFrom.allowances "mock_owner" "mock_sender" ∧
    (((execute_send fb0 stFrom "mock_owner" "dex_contract" 10000000 [1]).1.balances "mock_owner"
        = stFrom.balances "mock_owner" - 10000000 ∧
      (execute_send fb0 stFrom "mock_owner" "dex_contract" 10000000 [1]).1.balances cfg10.fee_receiver
        = stFrom.balances cfg10.fee_receiver + 1000000 ∧
      (execute_send fb0 stFrom "mock_owner" "dex_contract" 10000000 [1]).1.balances "dex_contract"
        = stFrom.balances "dex_contract" + (10000000 - 1000000) ∧
      (execute_send fb0 stFrom "mock_owner" "dex_contract" 10000000 [1]).2 =
        Except.ok
          { attributes := [("action", "send"), ("from", "mock_owner"), ("to", "dex_contract"),
                           ("amount", toString (10000000 : Nat)),
                           ("fee_amount", toString (1000000 : Nat))],
            messages := [("dex_contract",
              { sender := "mock_owner", amount := 10000000 - 1000000, msg := [1] })] }) ∧
     ((execute_send_from fb0 avOk stFrom "mock_sender" "mock_owner" "dex_contract"
         10000000 [1]).1.balances "mock_owner"
        = stFrom.balances "mock_owner" - 10000000 ∧
      (execute_send_from fb0 avOk stFrom "mock_sender" "mock_owner" "dex_contract"
         10000000 [1]).1.balances cfg10.fee_receiver
        = stFrom.balances cfg10.fee_receiver + 1000000 ∧
      (execute_send_from fb0 avOk stFrom "mock_sender" "mock_owner" "dex_contract"
         10000000 [1]).1.balances "dex_contract"
        = stFrom.balances "dex_contract" + (10000000 - 1000000) ∧
      (execute_send_from fb0 avOk stFrom "mock_sender" "mock_owner" "dex_contract"
         10000000 [1]).2 =
        Except.ok
          { attributes := [("action", "send_from"), ("from", "mock_owner"),
                           ("to", "dex_contract"), ("by", "mock_sender"),
                           ("amount", toString (10000000 : Nat)),
                           ("fee_amount", toString (1000000 : Nat))],
            messages := [("dex_contract",
              { sender := "mock_sender", amount := 10000000 - 1000000, msg := [1] })] })) :=
  ⟨rfl, by decide, by decide, by decide, by decide, by decide, by decide, by decide,
   by decide, by decide,
   execute_send_conservation fb0 avOk stFrom "mock_owner" "mock_sender" "dex_contract"
     10000000 [1] cfg10 1000000 rfl (by decide) (by decide) (by decide) (by decide)
     (by decide) (by decide) (by decide) (by decide) (by decide)⟩
